import Mathlib

/-!
Verification model of the boltz chain-swap client
(`ChainToChainSwapService`, both the bitcoin and the liquid variant),
shallowly embedded from the TypeScript source.

Conventions of the embedding:
* Byte strings (public keys, scripts, preimages) are lists of naturals.
* The external cryptographic primitives (MuSig key aggregation and
  taproot tweaking) are consumed, never reimplemented, by the source;
  here they appear as their graphs: abstract encodings compared for
  byte-exact equality, which is the only way the source uses them.
* Network calls and the RNG are modelled by explicit environments:
  a `PipelineEnv` records which remote calls succeed, an entropy tape
  `tape : Nat -> NonceSeed` together with a draw counter models
  `randomBytes(32)`.
* Side effects (status updates, subscribe/unsubscribe, broadcast,
  preimage generation, swap creation) are returned as an explicit trace,
  and a thrown JS exception is an `Option String` error component.
-/

namespace BoltzChainSwap

/-- The `ChainSwapTransactionStatus` enum of the source. -/
inductive ChainSwapTransactionStatus
  | CREATED
  | LOCKUP_PENDING
  | LOCKUP_CONFIRMED
  | CLAIM_PENDING
  | CLAIM_CONFIRMED
  | LOCKUP_FAILED
  | CLAIM_FAILED
deriving DecidableEq, Repr

open ChainSwapTransactionStatus

/-- Elements that can appear in a transaction input witness. The claim
transaction's witness is assembled by the source from the aggregated
MuSig signature only; preimages and script-path data are the other
kinds of element a taproot witness could hold. -/
inductive WitnessElem
  | aggSig
  | preimageElem
  | scriptPathElem
deriving DecidableEq, Repr

/-- A claim transaction: single input (with its witness), single output
paying the user address, and the fee deducted from the spent value. -/
structure ClaimTx where
  witness : List WitnessElem
  outputValue : Nat
  fee : Nat
deriving DecidableEq, Repr

/-- A transaction output of the lockup transaction: value in satoshi
and its output script as bytes. -/
structure TxOut where
  value : Nat
  script : List Nat
deriving DecidableEq, Repr

/-- The parsed lockup transaction (the only part the source reads is
`outs`). -/
structure LockupTx where
  outs : List TxOut
deriving DecidableEq, Repr

/-- Observable side effects of the service, in the order they are
performed. -/
inductive Effect
  | updateStatus (status : ChainSwapTransactionStatus)
  | subscribeSwap (channel : String) (swapId : String)
  | unsubscribeSwap (channel : String) (swapId : String)
  | broadcast (tx : ClaimTx)
  | drawPreimage
  | createSwap
deriving DecidableEq, Repr

/-- Operations invoked on one MuSig signing session, recorded in call
order. `newSession k` is the construction of the session with the
`k`-th draw of the entropy tape as its 32-byte nonce seed. -/
inductive MusigOp
  | newSession (nonceIdx : Nat)
  | tweak
  | aggregateNonces
  | initializeSession
  | addPartialSig
  | signPartialSig
  | aggregatePartialSigs
deriving DecidableEq, Repr

/-- Which remote calls / session operations succeed during one claim
attempt. A `false` field means the corresponding call throws. -/
structure PipelineEnv where
  exchangeOk : Bool
  aggregateNoncesOk : Bool
  initializeSessionOk : Bool
  addPartialOk : Bool
  signPartialOk : Bool
  aggregatePartialsOk : Bool
  broadcastOk : Bool
deriving DecidableEq, Repr

/-- The environment in which every remote call succeeds. -/
def envAllOk : PipelineEnv :=
  { exchangeOk := true
    aggregateNoncesOk := true
    initializeSessionOk := true
    addPartialOk := true
    signPartialOk := true
    aggregatePartialsOk := true
    broadcastOk := true }

/-- The `WithdrawChainSwapTransaction` entity of the source. The
serialized swap trees are represented by their Merkle roots (the only
datum the tweak consumes). -/
structure SwapEntity where
  swapId : String
  userAddress : String
  claimPublicKey : List Nat
  claimSwapTreeRoot : Nat
  lockupPublicKey : List Nat
  lockupSwapTreeRoot : Nat
  preimage : List Nat
  feeRate : Nat
  minerFees : Nat
  boltzFee : Nat
deriving DecidableEq, Repr

/-- Modelled from the spec: a taproot output script embedding a 32-byte
key (`OP_1 PUSH32 key`); detection compares the embedded key bytes
exactly. -/
def taprootScript (key : List Nat) : List Nat :=
  0x51 :: 0x20 :: key

/-- Modelled from the spec: the MuSig aggregate key over
[remote, local] tweaked with the Merkle root of the deserialized swap
script tree. The elliptic-curve map lives in the external crypto
library; since the source only ever compares the result byte-exactly,
it is modelled by an injective encoding of its inputs. -/
def tweakMusig (remoteKey localKey : List Nat) (treeRoot : Nat) : List Nat :=
  treeRoot :: (remoteKey ++ localKey)

/-- The detected swap output: index, value and script. -/
structure SwapOutput where
  outputIndex : Nat
  value : Nat
  script : List Nat
deriving DecidableEq, Repr

/-- Scan outputs from index `i`, returning the first taproot output
whose embedded key equals the tweaked key. -/
def detectSwapAux (tweakedKey : List Nat) : Nat → List TxOut → Option SwapOutput
  | _, [] => none
  | i, o :: rest =>
    if o.script = taprootScript tweakedKey then
      some { outputIndex := i, value := o.value, script := o.script }
    else
      detectSwapAux tweakedKey (i + 1) rest

/-- Modelled from the spec: `detectSwap` (boltz-core) scans every output
of the transaction for a taproot output whose embedded 32-byte key
equals the tweaked key and returns the first match, `none` otherwise. -/
def detectSwap (tweakedKey : List Nat) (tx : LockupTx) : Option SwapOutput :=
  detectSwapAux tweakedKey 0 tx.outs

/-- Modelled from the spec: virtual size of the single-input key-path
taproot claim transaction. The witness is a single Schnorr signature,
so the size does not depend on the fee value. -/
def claimTxVsize : Nat := 111

/-- Modelled from the spec: `constructClaimTransaction` (boltz-core)
builds the single-input, single-output spend of the detected output;
a post-fee value of zero or less is a fatal error. -/
def constructClaimTransaction (utxoValue fee : Nat) : Except String ClaimTx :=
  if utxoValue ≤ fee then
    Except.error "InsufficientFunds"
  else
    Except.ok { witness := [], outputValue := utxoValue - fee, fee := fee }

/-- One round of the fixed-point fee search with the given fuel:
rebuild at the candidate fee, recompute `vsize * rate`, stop when
stable. -/
def targetFeeAux (rate : Nat) (construct : Nat → Except String ClaimTx) :
    Nat → Nat → Except String ClaimTx
  | 0, _ => Except.error "fee search did not converge"
  | fuel + 1, fee =>
    if claimTxVsize * rate = fee then
      construct fee
    else
      targetFeeAux rate construct fuel (claimTxVsize * rate)

/-- Modelled from the spec: `targetFee` (boltz-core) iterates the
construction until the deducted fee equals the measured size times the
target fee rate. -/
def targetFee (rate : Nat) (construct : Nat → Except String ClaimTx) :
    Except String ClaimTx :=
  targetFeeAux rate construct 2 0

/-- `createClaimTransaction` of the bitcoin variant: create a MuSig
session seeded by entropy draw `k`, tweak it with the claim script
tree, detect the swap output in the lockup transaction, and build the
claim transaction at the entity's fee rate. Returns the session's
operation log alongside the result; a missing output or a failed build
is a thrown error. -/
def createClaimTransaction (k : Nat) (localKey : List Nat) (entity : SwapEntity)
    (lockupTx : LockupTx) :
    List MusigOp × Except String (SwapOutput × ClaimTx) :=
  ([MusigOp.newSession k, MusigOp.tweak],
    match detectSwap (tweakMusig entity.claimPublicKey localKey
        entity.claimSwapTreeRoot) lockupTx with
    | none => Except.error "No swap output found in lockup transaction"
    | some out =>
      match targetFee entity.feeRate (fun fee => constructClaimTransaction out.value fee) with
      | Except.error e => Except.error e
      | Except.ok tx => Except.ok (out, tx))

/-- `getBoltzPartialSignature`: a second MuSig session, seeded by
entropy draw `k`, tweaked with the lockup script tree, over the
sighash sent by the server; its partial signature is exchanged through
two REST calls whose success is `env.exchangeOk`. -/
def getBoltzPartialSignature (env : PipelineEnv) (k : Nat) :
    List MusigOp × Option String :=
  ([MusigOp.newSession k, MusigOp.tweak, MusigOp.aggregateNonces,
    MusigOp.initializeSession, MusigOp.signPartialSig],
    if env.exchangeOk then none else some "exchange failed")

/-- The five session operations `performChainSwapClaim` runs on the
claim session, in source order. -/
def performOps : List MusigOp :=
  [MusigOp.aggregateNonces, MusigOp.initializeSession, MusigOp.addPartialSig,
    MusigOp.signPartialSig, MusigOp.aggregatePartialSigs]

/-- The finalized claim transaction: the single input's witness is set
to the single aggregated signature. -/
def withAggWitness (tx : ClaimTx) : ClaimTx :=
  { tx with witness := [WitnessElem.aggSig] }

/-- `performChainSwapClaim`: aggregate nonces, initialize the session
over the claim transaction's sighash, add the remote partial
signature, produce the local one, aggregate, set the input witness to
the single aggregated signature, and broadcast. Returns the invoked
session operations, the performed effects, the finalized transaction
when it was produced, and the thrown error if any step failed. -/
def performChainSwapClaim (env : PipelineEnv) (tx : ClaimTx) :
    List MusigOp × List Effect × Option ClaimTx × Option String :=
  if env.aggregateNoncesOk = false then
    ([MusigOp.aggregateNonces], [], none, some "aggregateNonces failed")
  else if env.initializeSessionOk = false then
    ([MusigOp.aggregateNonces, MusigOp.initializeSession], [], none,
      some "initializeSession failed")
  else if env.addPartialOk = false then
    ([MusigOp.aggregateNonces, MusigOp.initializeSession, MusigOp.addPartialSig],
      [], none, some "addPartial failed")
  else if env.signPartialOk = false then
    ([MusigOp.aggregateNonces, MusigOp.initializeSession, MusigOp.addPartialSig,
      MusigOp.signPartialSig], [], none, some "signPartial failed")
  else if env.aggregatePartialsOk = false then
    (performOps, [], none, some "aggregatePartials failed")
  else if env.broadcastOk = false then
    (performOps, [Effect.broadcast (withAggWitness tx)], some (withAggWitness tx),
      some "broadcast failed")
  else
    (performOps, [Effect.broadcast (withAggWitness tx)], some (withAggWitness tx), none)

/-- `broadcastCoSignedClaimTransaction` of the bitcoin variant: run the
claim pipeline (build, partial-signature exchange, co-sign, broadcast)
inside a try/catch whose catch records `CLAIM_FAILED` and rethrows.
`lockupTx = none` models a message without a transaction hex, whose
parse throws inside the try. `k` is the entropy counter: the claim
session draws `k`, the exchange session draws `k + 1`. -/
def broadcastCoSignedClaimTransaction (env : PipelineEnv) (k : Nat)
    (localKey : List Nat) (entity : SwapEntity) (lockupTx : Option LockupTx) :
    List Effect × Option String :=
  match lockupTx with
  | none => ([Effect.updateStatus CLAIM_FAILED], some "invalid lockup transaction hex")
  | some ltx =>
    match (createClaimTransaction k localKey entity ltx).2 with
    | Except.error e => ([Effect.updateStatus CLAIM_FAILED], some e)
    | Except.ok (_, tx) =>
      match (getBoltzPartialSignature env (k + 1)).2 with
      | some e => ([Effect.updateStatus CLAIM_FAILED], some e)
      | none =>
        match (performChainSwapClaim env tx).2.2.2 with
        | some e =>
          ((performChainSwapClaim env tx).2.1 ++ [Effect.updateStatus CLAIM_FAILED],
            some e)
        | none => ((performChainSwapClaim env tx).2.1, none)

/-- One argument of a websocket `swap.update` message: swap id, status,
optional transaction id and optional parsed transaction hex. -/
structure WsArg where
  id : String
  status : String
  txId : Option String
  txHex : Option LockupTx
deriving DecidableEq, Repr

/-- A websocket message as delivered to the `onMessage` callback. -/
structure WsMessage where
  event : String
  args : List WsArg
deriving DecidableEq, Repr

/-- The switch over `msg.args[0].status` of the bitcoin variant's
`handleChainSwapStatusUpdates` (the body of the try block): the
effects it performs, plus the error it throws, if any. -/
def handleSwitch (env : PipelineEnv) (k : Nat) (localKey : List Nat)
    (entity : SwapEntity) (arg : WsArg) : List Effect × Option String :=
  if arg.status = "swap.created" then
    ([Effect.updateStatus LOCKUP_PENDING], none)
  else if arg.status = "transaction.lockup" then
    ([Effect.updateStatus LOCKUP_CONFIRMED], none)
  else if arg.status = "transaction.server.mempool" then
    ([Effect.updateStatus CLAIM_PENDING], none)
  else if arg.status = "transaction.server.confirmed" then
    broadcastCoSignedClaimTransaction env k localKey entity arg.txHex
  else if arg.status = "transaction.claimed" then
    ([Effect.updateStatus CLAIM_CONFIRMED], none)
  else if arg.status = "transaction.lockupFailed" then
    ([Effect.updateStatus LOCKUP_FAILED,
      Effect.unsubscribeSwap "swap.update" entity.swapId], none)
  else if arg.status = "transaction.claimFailed" then
    ([Effect.updateStatus CLAIM_FAILED,
      Effect.unsubscribeSwap "swap.update" entity.swapId], none)
  else if arg.status = "swap.expired" then
    ([Effect.updateStatus LOCKUP_FAILED,
      Effect.unsubscribeSwap "swap.update" entity.swapId], none)
  else
    ([], none)

/-- The bitcoin variant's websocket message handler: ignore non-update
events, messages with missing args and foreign swap ids; run the
status switch inside try/catch, the catch setting `CLAIM_FAILED` and
unsubscribing. Returns the trace of performed effects. -/
def handleMessage (env : PipelineEnv) (k : Nat) (localKey : List Nat)
    (entity : SwapEntity) (msg : WsMessage) : List Effect :=
  if msg.event ≠ "update" then
    []
  else
    match msg.args.head? with
    | none => []
    | some arg =>
      if arg.id ≠ entity.swapId then
        []
      else
        match handleSwitch env k localKey entity arg with
        | (effs, none) => effs
        | (effs, some _) =>
          effs ++ [Effect.updateStatus CLAIM_FAILED,
            Effect.unsubscribeSwap "swap.update" entity.swapId]

/-- `createClaimTransaction` of the liquid variant: identical to the
bitcoin one except that the fee-target rate is the literal 2. -/
def createClaimTransactionLiquid (k : Nat) (localKey : List Nat)
    (entity : SwapEntity) (lockupTx : LockupTx) :
    List MusigOp × Except String (SwapOutput × ClaimTx) :=
  ([MusigOp.newSession k, MusigOp.tweak],
    match detectSwap (tweakMusig entity.claimPublicKey localKey
        entity.claimSwapTreeRoot) lockupTx with
    | none => Except.error "No swap output found in lockup transaction"
    | some out =>
      match targetFee 2 (fun fee => constructClaimTransaction out.value fee) with
      | Except.error e => Except.error e
      | Except.ok tx => Except.ok (out, tx))

/-- The `transaction.server.mempool` case body of the liquid variant:
throw when the message has no transaction hex, otherwise run the claim
pipeline; on success record `CLAIM_PENDING`, on failure rethrow (the
inner catch of the source only logs and rethrows). -/
def liquidMempoolStep (env : PipelineEnv) (k : Nat) (localKey : List Nat)
    (entity : SwapEntity) (lockupTx : Option LockupTx) :
    List Effect × Option String :=
  match lockupTx with
  | none => ([], some "No transaction hex provided in server mempool event")
  | some ltx =>
    match (createClaimTransactionLiquid k localKey entity ltx).2 with
    | Except.error e => ([], some e)
    | Except.ok (_, tx) =>
      match (getBoltzPartialSignature env (k + 1)).2 with
      | some e => ([], some e)
      | none =>
        match (performChainSwapClaim env tx).2.2.2 with
        | some e => ((performChainSwapClaim env tx).2.1, some e)
        | none =>
          ((performChainSwapClaim env tx).2.1 ++ [Effect.updateStatus CLAIM_PENDING],
            none)

/-- The switch over `msg.args[0].status` of the liquid variant's
`handleChainSwapStatusUpdates`: the claim pipeline runs on
`transaction.server.mempool`, `transaction.server.confirmed` is not
handled, and `transaction.claimed` finishes the swap and
unsubscribes. -/
def handleSwitchLiquid (env : PipelineEnv) (k : Nat) (localKey : List Nat)
    (entity : SwapEntity) (arg : WsArg) : List Effect × Option String :=
  if arg.status = "swap.created" then
    ([Effect.updateStatus LOCKUP_PENDING], none)
  else if arg.status = "transaction.lockup" then
    ([Effect.updateStatus LOCKUP_CONFIRMED], none)
  else if arg.status = "transaction.server.mempool" then
    liquidMempoolStep env k localKey entity arg.txHex
  else if arg.status = "transaction.claimed" then
    ([Effect.updateStatus CLAIM_CONFIRMED,
      Effect.unsubscribeSwap "swap.update" entity.swapId], none)
  else if arg.status = "transaction.lockupFailed" then
    ([Effect.updateStatus LOCKUP_FAILED,
      Effect.unsubscribeSwap "swap.update" entity.swapId], none)
  else if arg.status = "transaction.claimFailed" then
    ([Effect.updateStatus CLAIM_FAILED,
      Effect.unsubscribeSwap "swap.update" entity.swapId], none)
  else if arg.status = "swap.expired" then
    ([Effect.updateStatus LOCKUP_FAILED,
      Effect.unsubscribeSwap "swap.update" entity.swapId], none)
  else
    ([], none)

/-- The liquid variant's websocket message handler: same guard and same
try/catch as the bitcoin one, over the liquid switch. -/
def handleMessageLiquid (env : PipelineEnv) (k : Nat) (localKey : List Nat)
    (entity : SwapEntity) (msg : WsMessage) : List Effect :=
  if msg.event ≠ "update" then
    []
  else
    match msg.args.head? with
    | none => []
    | some arg =>
      if arg.id ≠ entity.swapId then
        []
      else
        match handleSwitchLiquid env k localKey entity arg with
        | (effs, none) => effs
        | (effs, some _) =>
          effs ++ [Effect.updateStatus CLAIM_FAILED,
            Effect.unsubscribeSwap "swap.update" entity.swapId]

/-- Process a list of delivered messages, concatenating the effect
traces. -/
def runMessages (env : PipelineEnv) (k : Nat) (localKey : List Nat)
    (entity : SwapEntity) (msgs : List WsMessage) : List Effect :=
  (msgs.map (handleMessage env k localKey entity)).flatten

/-- Process a list of delivered messages with the liquid handler. -/
def runMessagesLiquid (env : PipelineEnv) (k : Nat) (localKey : List Nat)
    (entity : SwapEntity) (msgs : List WsMessage) : List Effect :=
  (msgs.map (handleMessageLiquid env k localKey entity)).flatten

/-- The swap status after applying one effect: only `updateStatus`
changes it. -/
def applyEffect (s : ChainSwapTransactionStatus) :
    Effect → ChainSwapTransactionStatus
  | Effect.updateStatus s' => s'
  | _ => s

/-- The swap status recorded after a trace of effects, starting from
`s`. -/
def statusAfter (s : ChainSwapTransactionStatus) (effs : List Effect) :
    ChainSwapTransactionStatus :=
  effs.foldl applyEffect s

/-- Whether an effect is an unsubscribe call. -/
def isUnsubscribe : Effect → Bool
  | Effect.unsubscribeSwap _ _ => true
  | _ => false

/-- Number of unsubscribe calls in a trace. -/
def unsubscribeCount (effs : List Effect) : Nat :=
  (effs.filter isUnsubscribe).length

/-- Whether an effect is a transaction broadcast. -/
def isBroadcast : Effect → Bool
  | Effect.broadcast _ => true
  | _ => false

/-- Number of broadcast calls in a trace. -/
def broadcastCount (effs : List Effect) : Nat :=
  (effs.filter isBroadcast).length

/-- The fee schedule returned by `getChainSwapFee` for the
L-BTC -> BTC pair: percentage service fee and the two miner-fee
components. -/
structure FeeSchedule where
  percentage : ℚ
  serverMinerFee : Nat
  userClaimMinerFee : Nat
deriving DecidableEq, Repr

/-- Result of `calculateLockupSend`. -/
structure LockupSendParams where
  lockupAmount : ℤ
  minerFees : Nat
  boltzFee : ℤ
  feeRate : Nat
deriving DecidableEq, Repr

/-- `calculateLockupSend`:
`minerFees = server + user.claim`,
`lockupAmount = ceil((amount + minerFees) / (1 - percentage / 100))`,
`boltzFee = lockupAmount - amount - minerFees`. The JS number
arithmetic is modelled over the rationals. -/
def calculateLockupSend (schedule : FeeSchedule) (claimTxFeeRate : Nat)
    (amount : Nat) : LockupSendParams :=
  let minerFees := schedule.serverMinerFee + schedule.userClaimMinerFee
  let lockupAmount : ℤ :=
    ⌈((amount : ℚ) + (minerFees : ℚ)) / (1 - schedule.percentage / 100)⌉
  { lockupAmount := lockupAmount
    minerFees := minerFees
    boltzFee := lockupAmount - (amount : ℤ) - (minerFees : ℤ)
    feeRate := claimTxFeeRate }

/-- Environment of the swap-registration calls: the id the service
returns for the created swap (`none` models a falsy response or a
response without an id). -/
structure StartEnv where
  createdSwapId : Option String
deriving DecidableEq, Repr

/-- `startBoltzChainSwapWithListeners` of the bitcoin variant, as its
trace of side effects plus thrown error: validate the address and
amount first, then compute the lockup send, draw the preimage, create
the swap with the service, and subscribe to its updates. -/
def startBoltzChainSwapWithListeners (env : StartEnv) (userBtcAddress : String)
    (amount : ℤ) : List Effect × Option String :=
  if userBtcAddress = "" ∨ amount ≤ 0 then
    ([], some "Invalid address or amount")
  else
    match env.createdSwapId with
    | none => ([Effect.drawPreimage, Effect.createSwap], some "Error creating Chain Swap")
    | some swapId =>
      ([Effect.drawPreimage, Effect.createSwap,
        Effect.subscribeSwap "swap.update" swapId], none)

/-- `startBoltzChainSwap` of the liquid variant: validate, draw the
preimage, create the swap, and return it (no subscription here). -/
def startBoltzChainSwap (env : StartEnv) (userBtcAddress : String)
    (amount : ℤ) : List Effect × Option String :=
  if userBtcAddress = "" ∨ amount ≤ 0 then
    ([], some "Invalid address or amount")
  else
    match env.createdSwapId with
    | none => ([Effect.drawPreimage, Effect.createSwap], some "Error creating Chain Swap")
    | some _ => ([Effect.drawPreimage, Effect.createSwap], none)

/-- A 32-byte nonce seed. -/
abbrev NonceSeed := Fin (2 ^ 256)

/-- The entropy source behind `randomBytes(32)`: the `i`-th call
returns `tape i`. -/
abbrev EntropyTape := Nat → NonceSeed

/-- The indices of the entropy draws consumed by the `newSession`
constructions in a session-operation log. -/
def musigNonceIndices : List MusigOp → List Nat
  | [] => []
  | MusigOp.newSession i :: rest => i :: musigNonceIndices rest
  | _ :: rest => musigNonceIndices rest

/-- All MuSig session operations of one claim attempt started at
entropy counter `k`: the claim session created in
`createClaimTransaction` (draw `k`), the exchange session of
`getBoltzPartialSignature` (draw `k + 1`), then — when everything up
to there succeeded — the claim session's operations in
`performChainSwapClaim`. -/
def claimAttemptOps (env : PipelineEnv) (k : Nat) (localKey : List Nat)
    (entity : SwapEntity) (lockupTx : LockupTx) : List MusigOp :=
  let created := createClaimTransaction k localKey entity lockupTx
  match created.2 with
  | Except.error _ => created.1
  | Except.ok (_, tx) =>
    let ex := getBoltzPartialSignature env (k + 1)
    match ex.2 with
    | some _ => created.1 ++ ex.1
    | none => created.1 ++ ex.1 ++ (performChainSwapClaim env tx).1

/-- The operations invoked on the claim MuSig session alone (the one
created in `createClaimTransaction` and finalized in
`performChainSwapClaim`), in call order. -/
def claimSessionOps (env : PipelineEnv) (k : Nat) (localKey : List Nat)
    (entity : SwapEntity) (lockupTx : LockupTx) : List MusigOp :=
  let created := createClaimTransaction k localKey entity lockupTx
  match created.2 with
  | Except.error _ => created.1
  | Except.ok (_, tx) =>
    match (getBoltzPartialSignature env (k + 1)).2 with
    | some _ => created.1
    | none => created.1 ++ (performChainSwapClaim env tx).1

/-- Fee schedule of the end-to-end scenario: 0.5 % service fee,
500 sat server miner fee, 222 sat user claim miner fee. -/
def scenarioFeeSchedule : FeeSchedule :=
  { percentage := 1 / 2, serverMinerFee := 500, userClaimMinerFee := 222 }

/-- Stand-in bytes for the local public key in the scenario. -/
def scenarioLocalKey : List Nat := [2, 17]

/-- The swap entity of the end-to-end scenario (amount 25000, fee rate
2 sat/vbyte, fees from `calculateLockupSend` over
`scenarioFeeSchedule`). -/
def scenarioEntity : SwapEntity :=
  { swapId := "scenarioSwap"
    userAddress := "bcrt1qscenario"
    claimPublicKey := [3, 41]
    claimSwapTreeRoot := 7
    lockupPublicKey := [3, 42]
    lockupSwapTreeRoot := 8
    preimage := [9, 9, 9]
    feeRate := 2
    minerFees := 722
    boltzFee := 130 }

/-- The tweaked output key of the scenario's claim script tree. -/
def scenarioTweakedKey : List Nat :=
  tweakMusig scenarioEntity.claimPublicKey scenarioLocalKey
    scenarioEntity.claimSwapTreeRoot

/-- Value of the server's lockup output in the scenario: the principal
25000 minus the service fee (130) and the server's own lockup miner
fee (500). -/
def scenarioServerLockValue : Nat := 24370

/-- The scenario lockup transaction: the tweaked output sits at
index 1 between two decoy outputs (a taproot output with a foreign
key, and a P2WPKH output). -/
def scenarioLockupTx : LockupTx :=
  { outs :=
      [ { value := 1111, script := taprootScript (0 :: [5, 55]) }
      , { value := scenarioServerLockValue, script := taprootScript scenarioTweakedKey }
      , { value := 2222, script := [0x00, 0x14, 1, 2, 3] } ] }

/-- The swap output the detector finds in the scenario lockup
transaction. -/
def scenarioDetectedOutput : SwapOutput :=
  { outputIndex := 1, value := 24370, script := taprootScript scenarioTweakedKey }

/-- The claim transaction the builder produces in the scenario: single
output of 24148 sat after the 222 sat fee (111 vbytes at rate 2). -/
def scenarioClaimTx : ClaimTx :=
  { witness := [], outputValue := 24148, fee := 222 }

/-- A `swap.update` websocket message for the tracked swap id with the
given status and optional transaction hex. -/
def updMsg (entity : SwapEntity) (status : String) (hex : Option LockupTx) :
    WsMessage :=
  { event := "update"
    args := [{ id := entity.swapId, status := status, txId := none, txHex := hex }] }

/-- The effect trace of delivering a `transaction.server.confirmed`
event for the tracked swap to the bitcoin handler. -/
def confirmedTrace (env : PipelineEnv) (k : Nat) (localKey : List Nat)
    (entity : SwapEntity) (hex : Option LockupTx) : List Effect :=
  handleMessage env k localKey entity
    (updMsg entity "transaction.server.confirmed" hex)

/-- Whether every transaction broadcast in the trace carries a witness
that is exactly the single aggregated signature. -/
def broadcastsFullySigned (effs : List Effect) : Bool :=
  effs.all fun e =>
    match e with
    | Effect.broadcast tx => decide (tx.witness = [WitnessElem.aggSig])
    | _ => true

/-- A concrete entropy tape for instantiations: the `i`-th draw is the
32-byte value `i mod 2 ^ 256`. -/
def witnessTape : EntropyTape :=
  fun n => ⟨n % 2 ^ 256, Nat.mod_lt n (by norm_num)⟩

/-- A lockup transaction none of whose outputs embeds the scenario's
tweaked key: detection finds nothing in it. -/
def scenarioLockupTxNoMatch : LockupTx :=
  { outs :=
      [ { value := 1111, script := taprootScript (0 :: [5, 55]) }
      , { value := 2222, script := [0x00, 0x14, 1, 2, 3] } ] }

/-- The canonical happy-path event sequence for a tracked swap, with
the lockup transaction hex attached to the two server-transaction
events. -/
def canonicalMessages (entity : SwapEntity) (ltx : LockupTx) : List WsMessage :=
  [ { event := "update", args := [{ id := entity.swapId, status := "swap.created", txId := none, txHex := none }] }
  , { event := "update", args := [{ id := entity.swapId, status := "transaction.lockup", txId := some "lockuptx", txHex := none }] }
  , { event := "update", args := [{ id := entity.swapId, status := "transaction.server.mempool", txId := some "servertx", txHex := some ltx }] }
  , { event := "update", args := [{ id := entity.swapId, status := "transaction.server.confirmed", txId := some "servertx", txHex := some ltx }] }
  , { event := "update", args := [{ id := entity.swapId, status := "transaction.claimed", txId := none, txHex := none }] } ]

/-! ## Helper lemmas -/

theorem performChainSwapClaim_effs (env : PipelineEnv) (tx : ClaimTx) :
    (performChainSwapClaim env tx).2.1 = [] ∨
    (performChainSwapClaim env tx).2.1 = [Effect.broadcast (withAggWitness tx)] := by
  unfold performChainSwapClaim
  repeat' split
  all_goals simp

theorem performChainSwapClaim_of_ok (env : PipelineEnv) (tx : ClaimTx)
    (h : (performChainSwapClaim env tx).2.2.2 = none) :
    performChainSwapClaim env tx =
      (performOps, [Effect.broadcast (withAggWitness tx)],
        some (withAggWitness tx), none) := by
  unfold performChainSwapClaim at h ⊢
  repeat' split at h
  all_goals simp_all

theorem performChainSwapClaim_signed (env : PipelineEnv) (tx signed : ClaimTx)
    (h : (performChainSwapClaim env tx).2.2.1 = some signed) :
    signed = withAggWitness tx := by
  unfold performChainSwapClaim at h
  repeat' split at h
  all_goals simp_all

theorem createClaimTransaction_fst (k : Nat) (key : List Nat) (entity : SwapEntity)
    (ltx : LockupTx) :
    (createClaimTransaction k key entity ltx).1 =
      [MusigOp.newSession k, MusigOp.tweak] := rfl

theorem getBoltzPartialSignature_fst (env : PipelineEnv) (k : Nat) :
    (getBoltzPartialSignature env k).1 =
      [MusigOp.newSession k, MusigOp.tweak, MusigOp.aggregateNonces,
        MusigOp.initializeSession, MusigOp.signPartialSig] := rfl

theorem musigNonceIndices_append (a b : List MusigOp) :
    musigNonceIndices (a ++ b) = musigNonceIndices a ++ musigNonceIndices b := by
  induction a with
  | nil => rfl
  | cons x t ih => cases x <;> simp [musigNonceIndices, ih]

theorem performChainSwapClaim_nonceIndices (env : PipelineEnv) (tx : ClaimTx) :
    musigNonceIndices (performChainSwapClaim env tx).1 = [] := by
  unfold performChainSwapClaim
  repeat' split
  all_goals rfl

theorem claimAttemptOps_nonceIndices (env : PipelineEnv) (k : Nat) (key : List Nat)
    (entity : SwapEntity) (ltx : LockupTx) :
    musigNonceIndices (claimAttemptOps env k key entity ltx) = [k] ∨
    musigNonceIndices (claimAttemptOps env k key entity ltx) = [k, k + 1] := by
  rcases hc : (createClaimTransaction k key entity ltx).2 with e | p
  · left
    simp only [claimAttemptOps, hc, createClaimTransaction_fst]
    rfl
  · obtain ⟨out, tx⟩ := p
    rcases hx : (getBoltzPartialSignature env (k + 1)).2 with _ | e
    · right
      simp only [claimAttemptOps, hc, hx]
      rw [musigNonceIndices_append, musigNonceIndices_append,
        createClaimTransaction_fst, getBoltzPartialSignature_fst,
        performChainSwapClaim_nonceIndices]
      rfl
    · right
      simp only [claimAttemptOps, hc, hx]
      rw [musigNonceIndices_append, createClaimTransaction_fst,
        getBoltzPartialSignature_fst]
      rfl

theorem broadcastCoSigned_cases (env : PipelineEnv) (k : Nat) (key : List Nat)
    (entity : SwapEntity) (hex : Option LockupTx) :
    (∃ tx, broadcastCoSignedClaimTransaction env k key entity hex =
        ([Effect.broadcast tx], none) ∧ tx.witness = [WitnessElem.aggSig]) ∨
    (∃ e, broadcastCoSignedClaimTransaction env k key entity hex =
        ([Effect.updateStatus CLAIM_FAILED], some e)) ∨
    (∃ tx e, broadcastCoSignedClaimTransaction env k key entity hex =
        ([Effect.broadcast tx, Effect.updateStatus CLAIM_FAILED], some e) ∧
        tx.witness = [WitnessElem.aggSig]) := by
  cases hex with
  | none =>
    right; left
    exact ⟨_, rfl⟩
  | some ltx =>
    rcases hc : (createClaimTransaction k key entity ltx).2 with e | p
    · right; left
      exact ⟨e, by simp only [broadcastCoSignedClaimTransaction, hc]⟩
    · obtain ⟨out, tx⟩ := p
      rcases hx : (getBoltzPartialSignature env (k + 1)).2 with _ | e
      · rcases hp : (performChainSwapClaim env tx).2.2.2 with _ | e
        · left
          refine ⟨withAggWitness tx, ?_, rfl⟩
          have hok := performChainSwapClaim_of_ok env tx hp
          simp only [broadcastCoSignedClaimTransaction, hc, hx, hp, hok]
        · rcases performChainSwapClaim_effs env tx with he | he
          · right; left
            refine ⟨e, ?_⟩
            simp only [broadcastCoSignedClaimTransaction, hc, hx, hp, he]
            rfl
          · right; right
            refine ⟨withAggWitness tx, e, ?_, rfl⟩
            simp only [broadcastCoSignedClaimTransaction, hc, hx, hp, he]
            rfl
      · right; left
        exact ⟨e, by simp only [broadcastCoSignedClaimTransaction, hc, hx]⟩

theorem liquidMempoolStep_cases (env : PipelineEnv) (k : Nat) (key : List Nat)
    (entity : SwapEntity) (hex : Option LockupTx) :
    (∃ tx, liquidMempoolStep env k key entity hex =
        ([Effect.broadcast tx, Effect.updateStatus CLAIM_PENDING], none) ∧
        tx.witness = [WitnessElem.aggSig]) ∨
    (∃ e, liquidMempoolStep env k key entity hex = ([], some e)) ∨
    (∃ tx e, liquidMempoolStep env k key entity hex =
        ([Effect.broadcast tx], some e) ∧ tx.witness = [WitnessElem.aggSig]) := by
  cases hex with
  | none =>
    right; left
    exact ⟨_, rfl⟩
  | some ltx =>
    rcases hc : (createClaimTransactionLiquid k key entity ltx).2 with e | p
    · right; left
      exact ⟨e, by simp only [liquidMempoolStep, hc]⟩
    · obtain ⟨out, tx⟩ := p
      rcases hx : (getBoltzPartialSignature env (k + 1)).2 with _ | e
      · rcases hp : (performChainSwapClaim env tx).2.2.2 with _ | e
        · left
          refine ⟨withAggWitness tx, ?_, rfl⟩
          have hok := performChainSwapClaim_of_ok env tx hp
          simp only [liquidMempoolStep, hc, hx, hp, hok]
          rfl
        · rcases performChainSwapClaim_effs env tx with he | he
          · right; left
            refine ⟨e, ?_⟩
            simp only [liquidMempoolStep, hc, hx, hp, he]
          · right; right
            refine ⟨withAggWitness tx, e, ?_, rfl⟩
            simp only [liquidMempoolStep, hc, hx, hp, he]
      · right; left
        exact ⟨e, by simp only [liquidMempoolStep, hc, hx]⟩

/-! ## Claim theorems -/

/-- C1: for every delivered `transaction.server.confirmed` event for the
tracked swap id whose claim pipeline throws at any point (missing or
unparseable lockup hex, output detection, claim construction,
partial-signature exchange, any session step, or broadcast), the
Controller catches the exception, the recorded status ends at
`CLAIM_FAILED`, exactly one unsubscribe for the swap id is issued, and
every transaction that was handed to broadcast carries the fully
aggregated single-signature witness — no half-signed transaction is
ever broadcast. -/
theorem pipeline_error_maps_to_claimFailed_and_unsubscribes
    (env : PipelineEnv) (k : Nat) (key : List Nat) (entity : SwapEntity)
    (s : ChainSwapTransactionStatus) (hex : Option LockupTx)
    (h : (broadcastCoSignedClaimTransaction env k key entity hex).2 ≠ none) :
    statusAfter s (confirmedTrace env k key entity hex) = CLAIM_FAILED ∧
    unsubscribeCount (confirmedTrace env k key entity hex) = 1 ∧
    broadcastsFullySigned (confirmedTrace env k key entity hex) = true := by
  rcases broadcastCoSigned_cases env k key entity hex with
    ⟨tx, hbc, hw⟩ | ⟨e, hbc⟩ | ⟨tx, e, hbc, hw⟩
  · rw [hbc] at h
    simp at h
  · have ht : confirmedTrace env k key entity hex =
        [Effect.updateStatus CLAIM_FAILED, Effect.updateStatus CLAIM_FAILED,
          Effect.unsubscribeSwap "swap.update" entity.swapId] := by
      simp [confirmedTrace, handleMessage, updMsg, handleSwitch, hbc]
    rw [ht]
    exact ⟨rfl, rfl, rfl⟩
  · have ht : confirmedTrace env k key entity hex =
        [Effect.broadcast tx, Effect.updateStatus CLAIM_FAILED,
          Effect.updateStatus CLAIM_FAILED,
          Effect.unsubscribeSwap "swap.update" entity.swapId] := by
      simp [confirmedTrace, handleMessage, updMsg, handleSwitch, hbc]
    rw [ht]
    refine ⟨rfl, rfl, ?_⟩
    simp [broadcastsFullySigned, hw]

/-- Witness for C1: a concrete run in which the partial-signature
exchange throws. -/
theorem pipeline_error_maps_to_claimFailed_and_unsubscribes_witness :
    statusAfter CREATED (confirmedTrace { envAllOk with exchangeOk := false } 0
      scenarioLocalKey scenarioEntity (some scenarioLockupTx)) = CLAIM_FAILED ∧
    unsubscribeCount (confirmedTrace { envAllOk with exchangeOk := false } 0
      scenarioLocalKey scenarioEntity (some scenarioLockupTx)) = 1 ∧
    broadcastsFullySigned (confirmedTrace { envAllOk with exchangeOk := false } 0
      scenarioLocalKey scenarioEntity (some scenarioLockupTx)) = true :=
  pipeline_error_maps_to_claimFailed_and_unsubscribes
    { envAllOk with exchangeOk := false } 0 scenarioLocalKey scenarioEntity
    CREATED (some scenarioLockupTx) (by decide)

/-- C2 counterexample: in the code, a lockup transaction in which the
detector finds no matching output is NOT treated as recoverable: at
the concrete no-match transaction the controller records
`CLAIM_FAILED` and unsubscribes. -/
theorem detector_miss_counterexample :
    detectSwap scenarioTweakedKey scenarioLockupTxNoMatch = none ∧
    statusAfter CREATED (confirmedTrace envAllOk 0 scenarioLocalKey scenarioEntity
      (some scenarioLockupTxNoMatch)) = CLAIM_FAILED ∧
    unsubscribeCount (confirmedTrace envAllOk 0 scenarioLocalKey scenarioEntity
      (some scenarioLockupTxNoMatch)) = 1 := by decide

/-- C2 (amended): when the detector finds no output whose embedded key
equals the tweaked key, `createClaimTransaction` throws
"No swap output found in lockup transaction", and the Controller maps
this to a local failure: status `CLAIM_FAILED` plus an unsubscribe —
there is no retry, wait, or backoff. -/
theorem detector_miss_is_local_failure
    (env : PipelineEnv) (k : Nat) (key : List Nat) (entity : SwapEntity)
    (ltx : LockupTx) (s : ChainSwapTransactionStatus)
    (h : detectSwap (tweakMusig entity.claimPublicKey key entity.claimSwapTreeRoot)
      ltx = none) :
    (createClaimTransaction k key entity ltx).2 =
      Except.error "No swap output found in lockup transaction" ∧
    statusAfter s (confirmedTrace env k key entity (some ltx)) = CLAIM_FAILED ∧
    unsubscribeCount (confirmedTrace env k key entity (some ltx)) = 1 := by
  have hcreate : (createClaimTransaction k key entity ltx).2 =
      Except.error "No swap output found in lockup transaction" := by
    simp only [createClaimTransaction, h]
  have ht : confirmedTrace env k key entity (some ltx) =
      [Effect.updateStatus CLAIM_FAILED, Effect.updateStatus CLAIM_FAILED,
        Effect.unsubscribeSwap "swap.update" entity.swapId] := by
    simp [confirmedTrace, handleMessage, updMsg, handleSwitch,
      broadcastCoSignedClaimTransaction, hcreate]
  rw [ht]
  exact ⟨hcreate, rfl, rfl⟩

/-- Witness for the amended C2 at the concrete no-match transaction. -/
theorem detector_miss_is_local_failure_witness :
    (createClaimTransaction 0 scenarioLocalKey scenarioEntity
        scenarioLockupTxNoMatch).2 =
      Except.error "No swap output found in lockup transaction" ∧
    statusAfter LOCKUP_CONFIRMED (confirmedTrace envAllOk 0 scenarioLocalKey
      scenarioEntity (some scenarioLockupTxNoMatch)) = CLAIM_FAILED ∧
    unsubscribeCount (confirmedTrace envAllOk 0 scenarioLocalKey scenarioEntity
      (some scenarioLockupTxNoMatch)) = 1 :=
  detector_miss_is_local_failure envAllOk 0 scenarioLocalKey scenarioEntity
    scenarioLockupTxNoMatch LOCKUP_CONFIRMED (by decide)

/-- C5 counterexample: in the concrete successful claim attempt, the
claim session's operation log places `addPartial` (index 4) before
`signPartial` (index 5), refuting the claimed order
"signPartial before addPartial". -/
theorem claim_session_order_counterexample :
    claimSessionOps envAllOk 0 scenarioLocalKey scenarioEntity scenarioLockupTx =
      [MusigOp.newSession 0, MusigOp.tweak, MusigOp.aggregateNonces,
        MusigOp.initializeSession, MusigOp.addPartialSig, MusigOp.signPartialSig,
        MusigOp.aggregatePartialSigs] ∧
    (claimSessionOps envAllOk 0 scenarioLocalKey scenarioEntity
      scenarioLockupTx)[4]? = some MusigOp.addPartialSig ∧
    (claimSessionOps envAllOk 0 scenarioLocalKey scenarioEntity
      scenarioLockupTx)[5]? = some MusigOp.signPartialSig := by decide

/-- C5 (amended): within one successful claim attempt the claim
session's operations are invoked in the order tweak, aggregateNonces,
initializeSession, addPartial, signPartial, aggregatePartials — the
remote partial signature is recorded before the local one is produced,
and aggregatePartials is called last. -/
theorem claim_session_call_order
    (env : PipelineEnv) (k : Nat) (key : List Nat) (entity : SwapEntity)
    (ltx : LockupTx)
    (h : (broadcastCoSignedClaimTransaction env k key entity (some ltx)).2 = none) :
    claimSessionOps env k key entity ltx =
      [MusigOp.newSession k, MusigOp.tweak, MusigOp.aggregateNonces,
        MusigOp.initializeSession, MusigOp.addPartialSig, MusigOp.signPartialSig,
        MusigOp.aggregatePartialSigs] := by
  rcases hc : (createClaimTransaction k key entity ltx).2 with e | p
  · simp only [broadcastCoSignedClaimTransaction, hc] at h
    simp at h
  · obtain ⟨out, tx⟩ := p
    rcases hx : (getBoltzPartialSignature env (k + 1)).2 with _ | e
    · rcases hp : (performChainSwapClaim env tx).2.2.2 with _ | e
      · have hok := performChainSwapClaim_of_ok env tx hp
        simp only [claimSessionOps, hc, hx, hok, createClaimTransaction_fst]
        rfl
      · simp only [broadcastCoSignedClaimTransaction, hc, hx, hp] at h
        simp at h
    · simp only [broadcastCoSignedClaimTransaction, hc, hx] at h
      simp at h

/-- Witness for the amended C5 at the concrete successful attempt. -/
theorem claim_session_call_order_witness :
    claimSessionOps envAllOk 0 scenarioLocalKey scenarioEntity scenarioLockupTx =
      [MusigOp.newSession 0, MusigOp.tweak, MusigOp.aggregateNonces,
        MusigOp.initializeSession, MusigOp.addPartialSig, MusigOp.signPartialSig,
        MusigOp.aggregatePartialSigs] :=
  claim_session_call_order envAllOk 0 scenarioLocalKey scenarioEntity
    scenarioLockupTx (by decide)

/-- C8: whenever `performChainSwapClaim` finalizes a claim transaction,
its single input's witness is exactly one element — the aggregated
signature — and neither the preimage nor any script-path data appears
in it. -/
theorem finalized_witness_is_single_aggregated_signature
    (env : PipelineEnv) (tx signed : ClaimTx)
    (h : (performChainSwapClaim env tx).2.2.1 = some signed) :
    signed.witness = [WitnessElem.aggSig] ∧
    signed.witness.length = 1 ∧
    WitnessElem.preimageElem ∉ signed.witness ∧
    WitnessElem.scriptPathElem ∉ signed.witness := by
  have hs := performChainSwapClaim_signed env tx signed h
  subst hs
  refine ⟨rfl, rfl, by simp [withAggWitness], by simp [withAggWitness]⟩

/-- Witness for C8 at the concrete scenario claim transaction. -/
theorem finalized_witness_is_single_aggregated_signature_witness :
    (withAggWitness { witness := [], outputValue := 24148, fee := 222 }).witness =
      [WitnessElem.aggSig] ∧
    (withAggWitness { witness := [], outputValue := 24148, fee := 222 }).witness.length = 1 ∧
    WitnessElem.preimageElem ∉
      (withAggWitness { witness := [], outputValue := 24148, fee := 222 }).witness ∧
    WitnessElem.scriptPathElem ∉
      (withAggWitness { witness := [], outputValue := 24148, fee := 222 }).witness :=
  finalized_witness_is_single_aggregated_signature envAllOk
    { witness := [], outputValue := 24148, fee := 222 }
    (withAggWitness { witness := [], outputValue := 24148, fee := 222 }) (by decide)

/-- C9: a websocket message whose event is not "update", whose args are
missing, or whose first arg carries a foreign swap id is ignored by
both variants: the handler performs no effect at all (no status
update, no pipeline step, no subscribe or unsubscribe). -/
theorem foreign_messages_are_ignored
    (env : PipelineEnv) (k : Nat) (key : List Nat) (entity : SwapEntity)
    (msg : WsMessage)
    (h : msg.event ≠ "update" ∨ msg.args.head? = none ∨
      ∃ arg, msg.args.head? = some arg ∧ arg.id ≠ entity.swapId) :
    handleMessage env k key entity msg = [] ∧
    handleMessageLiquid env k key entity msg = [] := by
  constructor
  · by_cases he : msg.event = "update"
    · rcases h with h | h | ⟨arg, ha, hid⟩
      · exact absurd he h
      · simp [handleMessage, he, h]
      · simp [handleMessage, he, ha, hid]
    · simp [handleMessage, he]
  · by_cases he : msg.event = "update"
    · rcases h with h | h | ⟨arg, ha, hid⟩
      · exact absurd he h
      · simp [handleMessageLiquid, he, h]
      · simp [handleMessageLiquid, he, ha, hid]
    · simp [handleMessageLiquid, he]

/-- Witness for C9 at a concrete non-update message. -/
theorem foreign_messages_are_ignored_witness :
    handleMessage envAllOk 0 scenarioLocalKey scenarioEntity
      { event := "ping", args := [] } = [] ∧
    handleMessageLiquid envAllOk 0 scenarioLocalKey scenarioEntity
      { event := "ping", args := [] } = [] :=
  foreign_messages_are_ignored envAllOk 0 scenarioLocalKey scenarioEntity
    { event := "ping", args := [] } (Or.inl (by decide))

/-- C10: calling either start method with an empty (falsy) user address
or a non-positive amount throws "Invalid address or amount" before any
side effect: no preimage is drawn, no swap is created with the
service, and no subscription is made. -/
theorem invalid_start_throws_before_any_effect
    (env : StartEnv) (addr : String) (amount : ℤ)
    (h : addr = "" ∨ amount ≤ 0) :
    startBoltzChainSwapWithListeners env addr amount =
      ([], some "Invalid address or amount") ∧
    startBoltzChainSwap env addr amount =
      ([], some "Invalid address or amount") := by
  constructor <;>
    simp [startBoltzChainSwapWithListeners, startBoltzChainSwap, h]

/-- Witness for C10 at amount 0. -/
theorem invalid_start_throws_before_any_effect_witness :
    startBoltzChainSwapWithListeners { createdSwapId := some "swapX" } "bcrt1qa" 0 =
      ([], some "Invalid address or amount") ∧
    startBoltzChainSwap { createdSwapId := some "swapX" } "bcrt1qa" 0 =
      ([], some "Invalid address or amount") :=
  invalid_start_throws_before_any_effect { createdSwapId := some "swapX" }
    "bcrt1qa" 0 (Or.inr (by decide))

/-- C3 counterexample: in the bitcoin variant, the canonical event
order drives the swap to `CLAIM_CONFIRMED` but issues ZERO unsubscribe
calls (its `transaction.claimed` case never unsubscribes), refuting
"exactly one unsubscribe call". -/
theorem canonical_run_counterexample :
    statusAfter CREATED (runMessages envAllOk 0 scenarioLocalKey scenarioEntity
      (canonicalMessages scenarioEntity scenarioLockupTx)) = CLAIM_CONFIRMED ∧
    unsubscribeCount (runMessages envAllOk 0 scenarioLocalKey scenarioEntity
      (canonicalMessages scenarioEntity scenarioLockupTx)) = 0 := by decide

/-- C3 (amended): with the claim pipeline succeeding, the canonical
event order `swap.created, transaction.lockup,
transaction.server.mempool, transaction.server.confirmed,
transaction.claimed` leaves the swap in `CLAIM_CONFIRMED` in both
variants; the liquid variant issues exactly one unsubscribe call, the
bitcoin variant issues none. -/
theorem canonical_run_status_and_unsubscribes
    (env : PipelineEnv) (k : Nat) (key : List Nat) (entity : SwapEntity)
    (ltx : LockupTx) (s : ChainSwapTransactionStatus)
    (hbtc : (broadcastCoSignedClaimTransaction env k key entity (some ltx)).2 = none)
    (hliq : (liquidMempoolStep env k key entity (some ltx)).2 = none) :
    statusAfter s (runMessages env k key entity
      (canonicalMessages entity ltx)) = CLAIM_CONFIRMED ∧
    unsubscribeCount (runMessages env k key entity
      (canonicalMessages entity ltx)) = 0 ∧
    statusAfter s (runMessagesLiquid env k key entity
      (canonicalMessages entity ltx)) = CLAIM_CONFIRMED ∧
    unsubscribeCount (runMessagesLiquid env k key entity
      (canonicalMessages entity ltx)) = 1 := by
  rcases broadcastCoSigned_cases env k key entity (some ltx) with
    ⟨tx, hbc, hw⟩ | ⟨e, hbc⟩ | ⟨tx, e, hbc, hw⟩
  · rcases liquidMempoolStep_cases env k key entity (some ltx) with
      ⟨tx2, hlm, hw2⟩ | ⟨e2, hlm⟩ | ⟨tx2, e2, hlm, hw2⟩
    · have hbrun : runMessages env k key entity (canonicalMessages entity ltx) =
          [Effect.updateStatus LOCKUP_PENDING, Effect.updateStatus LOCKUP_CONFIRMED,
            Effect.updateStatus CLAIM_PENDING, Effect.broadcast tx,
            Effect.updateStatus CLAIM_CONFIRMED] := by
        simp [runMessages, canonicalMessages, handleMessage, handleSwitch, hbc]
      have hlrun : runMessagesLiquid env k key entity (canonicalMessages entity ltx) =
          [Effect.updateStatus LOCKUP_PENDING, Effect.updateStatus LOCKUP_CONFIRMED,
            Effect.broadcast tx2, Effect.updateStatus CLAIM_PENDING,
            Effect.updateStatus CLAIM_CONFIRMED,
            Effect.unsubscribeSwap "swap.update" entity.swapId] := by
        simp [runMessagesLiquid, canonicalMessages, handleMessageLiquid,
          handleSwitchLiquid, hlm]
      rw [hbrun, hlrun]
      exact ⟨rfl, rfl, rfl, rfl⟩
    · rw [hlm] at hliq
      simp at hliq
    · rw [hlm] at hliq
      simp at hliq
  · rw [hbc] at hbtc
    simp at hbtc
  · rw [hbc] at hbtc
    simp at hbtc

/-- Witness for the amended C3 at the concrete scenario. -/
theorem canonical_run_status_and_unsubscribes_witness :
    statusAfter CREATED (runMessages envAllOk 0 scenarioLocalKey scenarioEntity
      (canonicalMessages scenarioEntity scenarioLockupTx)) = CLAIM_CONFIRMED ∧
    unsubscribeCount (runMessages envAllOk 0 scenarioLocalKey scenarioEntity
      (canonicalMessages scenarioEntity scenarioLockupTx)) = 0 ∧
    statusAfter CREATED (runMessagesLiquid envAllOk 0 scenarioLocalKey
      scenarioEntity (canonicalMessages scenarioEntity scenarioLockupTx)) =
      CLAIM_CONFIRMED ∧
    unsubscribeCount (runMessagesLiquid envAllOk 0 scenarioLocalKey scenarioEntity
      (canonicalMessages scenarioEntity scenarioLockupTx)) = 1 :=
  canonical_run_status_and_unsubscribes envAllOk 0 scenarioLocalKey
    scenarioEntity scenarioLockupTx CREATED (by decide) (by decide)

/-- C4 counterexample: the transition actions carry no status
precondition, so a terminal status is not absorbing: after
`transaction.claimed` has driven the swap to the terminal
`CLAIM_CONFIRMED`, a later `swap.created` event moves it back to
`LOCKUP_PENDING`, re-entering an earlier non-terminal state. -/
theorem terminal_status_not_absorbing_counterexample :
    statusAfter CREATED (runMessages envAllOk 0 scenarioLocalKey scenarioEntity
      [updMsg scenarioEntity "transaction.claimed" none]) = CLAIM_CONFIRMED ∧
    statusAfter CREATED (runMessages envAllOk 0 scenarioLocalKey scenarioEntity
      [updMsg scenarioEntity "transaction.claimed" none,
        updMsg scenarioEntity "swap.created" none]) = LOCKUP_PENDING := by decide

/-- C4 (amended): the handler dispatches on the event status alone,
with no precondition on the current swap status: for every current
status `s`, each recognized event sets the same new status — so the
status is not monotone and terminal statuses are not absorbing. -/
theorem event_actions_ignore_current_status
    (env : PipelineEnv) (k : Nat) (key : List Nat) (entity : SwapEntity)
    (s : ChainSwapTransactionStatus) :
    statusAfter s (handleMessage env k key entity
      (updMsg entity "swap.created" none)) = LOCKUP_PENDING ∧
    statusAfter s (handleMessage env k key entity
      (updMsg entity "transaction.lockup" none)) = LOCKUP_CONFIRMED ∧
    statusAfter s (handleMessage env k key entity
      (updMsg entity "transaction.server.mempool" none)) = CLAIM_PENDING ∧
    statusAfter s (handleMessage env k key entity
      (updMsg entity "transaction.claimed" none)) = CLAIM_CONFIRMED ∧
    statusAfter s (handleMessage env k key entity
      (updMsg entity "transaction.lockupFailed" none)) = LOCKUP_FAILED ∧
    statusAfter s (handleMessage env k key entity
      (updMsg entity "transaction.claimFailed" none)) = CLAIM_FAILED ∧
    statusAfter s (handleMessage env k key entity
      (updMsg entity "swap.expired" none)) = LOCKUP_FAILED := by
  refine ⟨?_, ?_, ?_, ?_, ?_, ?_, ?_⟩ <;>
    simp [handleMessage, updMsg, handleSwitch, statusAfter, applyEffect]

/-- Local-injectivity transport: distinct in-range draw indices map to
distinct tape values. -/
theorem pairwise_ne_map_of_local_inj (tape : EntropyTape) (k : Nat)
    (hinj : ∀ i : Nat, i < 4 → ∀ j : Nat, j < 4 →
      tape (k + i) = tape (k + j) → i = j)
    (idxs : List Nat) (hsub : ∀ i ∈ idxs, ∃ d, d < 4 ∧ i = k + d)
    (hpw : List.Pairwise Ne idxs) : List.Pairwise Ne (idxs.map tape) := by
  rw [List.pairwise_map]
  refine List.Pairwise.imp_of_mem ?_ hpw
  intro a b ha hb hne he
  obtain ⟨d1, hd1, rfl⟩ := hsub a ha
  obtain ⟨d2, hd2, rfl⟩ := hsub b hb
  exact hne (by rw [hinj d1 hd1 d2 hd2 he])

/-- The draw indices of one claim attempt lie in `{k, k + 1}`. -/
theorem claimAttemptOps_nonceIndices_mem (env : PipelineEnv) (k : Nat)
    (key : List Nat) (entity : SwapEntity) (ltx : LockupTx) :
    ∀ i ∈ musigNonceIndices (claimAttemptOps env k key entity ltx),
      i = k ∨ i = k + 1 := by
  rcases claimAttemptOps_nonceIndices env k key entity ltx with h | h <;>
    rw [h] <;> intro i hi <;> simp at hi <;> tauto

/-- C6: every signing session is seeded by a fresh entropy draw — the
claim-tree session and the lockup-tree session of one attempt use
draws `k` and `k + 1`, a sequential second attempt uses `k + 2` and
`k + 3` — so as long as distinct draws of the 32-byte entropy source
do not collide, the local nonce seeds of any two sessions, in
particular across two sequential claim attempts for the same swap, are
pairwise distinct: no nonce value is reused across sessions. -/
theorem fresh_nonce_seeds_are_pairwise_distinct
    (tape : EntropyTape) (env1 env2 : PipelineEnv) (k : Nat) (key : List Nat)
    (entity : SwapEntity) (ltx1 ltx2 : LockupTx)
    (hinj : ∀ i : Nat, i < 4 → ∀ j : Nat, j < 4 →
      tape (k + i) = tape (k + j) → i = j) :
    List.Pairwise Ne
      ((musigNonceIndices (claimAttemptOps env1 k key entity ltx1 ++
        claimAttemptOps env2 (k + 2) key entity ltx2)).map tape) := by
  have mem1 := claimAttemptOps_nonceIndices_mem env1 k key entity ltx1
  have mem2 := claimAttemptOps_nonceIndices_mem env2 (k + 2) key entity ltx2
  rw [musigNonceIndices_append]
  refine pairwise_ne_map_of_local_inj tape k hinj _ ?_ ?_
  · intro i hi
    rw [List.mem_append] at hi
    rcases hi with hi | hi
    · rcases mem1 i hi with rfl | rfl
      · exact ⟨0, by omega, by omega⟩
      · exact ⟨1, by omega, by omega⟩
    · rcases mem2 i hi with rfl | rfl
      · exact ⟨2, by omega, by omega⟩
      · exact ⟨3, by omega, by omega⟩
  · rw [List.pairwise_append]
    refine ⟨?_, ?_, ?_⟩
    · rcases claimAttemptOps_nonceIndices env1 k key entity ltx1 with h | h <;>
        rw [h] <;> simp
    · rcases claimAttemptOps_nonceIndices env2 (k + 2) key entity ltx2 with h | h <;>
        rw [h] <;> simp
    · intro a ha b hb
      rcases mem1 a ha with rfl | rfl <;> rcases mem2 b hb with rfl | rfl <;> omega

/-- Witness for C6: a first attempt failing at broadcast followed by a
successful second attempt, over a concrete non-colliding tape. -/
theorem fresh_nonce_seeds_are_pairwise_distinct_witness :
    List.Pairwise Ne
      ((musigNonceIndices (claimAttemptOps { envAllOk with broadcastOk := false } 0
          scenarioLocalKey scenarioEntity scenarioLockupTx ++
        claimAttemptOps envAllOk (0 + 2) scenarioLocalKey scenarioEntity
          scenarioLockupTx)).map witnessTape) :=
  fresh_nonce_seeds_are_pairwise_distinct witnessTape
    { envAllOk with broadcastOk := false } envAllOk 0 scenarioLocalKey
    scenarioEntity scenarioLockupTx scenarioLockupTx (by decide)

/-- C7: the end-to-end scenario — swap registered for 25000 sat at fee
rate 2 sat/vbyte under the configured fee schedule, lockup transaction
with the tweaked output at index 1 among two decoys — detection
selects index 1, and the built claim transaction's single output value
equals `25000 - minerFees - serviceFee`, with `lockupAmount` and
`boltzFee` as computed by `calculateLockupSend`. -/
theorem end_to_end_scenario_output_value :
    calculateLockupSend scenarioFeeSchedule 2 25000 =
      { lockupAmount := 25852, minerFees := 722, boltzFee := 130, feeRate := 2 } ∧
    detectSwap scenarioTweakedKey scenarioLockupTx = some scenarioDetectedOutput ∧
    (createClaimTransaction 0 scenarioLocalKey scenarioEntity scenarioLockupTx).2 =
      Except.ok (scenarioDetectedOutput, scenarioClaimTx) ∧
    (scenarioClaimTx.outputValue : ℤ) =
      25000 - ((calculateLockupSend scenarioFeeSchedule 2 25000).minerFees : ℤ) -
        (calculateLockupSend scenarioFeeSchedule 2 25000).boltzFee := by
  have hcalc : calculateLockupSend scenarioFeeSchedule 2 25000 =
      { lockupAmount := 25852, minerFees := 722, boltzFee := 130, feeRate := 2 } := by
    have hceil : (⌈(25000 + 722 : ℚ) / (1 - (1 / 2 : ℚ) / 100)⌉ : ℤ) = 25852 := by
      rw [Int.ceil_eq_iff]
      norm_num
    simp only [calculateLockupSend, scenarioFeeSchedule]
    norm_num at hceil ⊢
    rw [hceil]
    norm_num
  refine ⟨hcalc, by decide, by rfl, ?_⟩
  rw [hcalc]
  norm_num [scenarioClaimTx]

end BoltzChainSwap
